import Mathlib

/-!
Verification development for a FastAPI contacts-management backend
(user signup/login/refresh/email-confirmation plus per-user contact CRUD).

The definitions below are a shallow embedding of the repository's code:
`src/repository/contacts.py`, `src/repository/users.py`,
`src/routes/auth.py`, `src/routes/contacts.py`.  Database tables are
embedded as Lean lists of records; a SQLAlchemy `select ... filter_by`
becomes a `List.find?` / `List.filter`; `commit` becomes returning the
updated list.  External collaborators (PostgreSQL date functions, JWT
encoding/decoding, password hashing, the Gravatar lookup) are embedded
by their documented semantics or passed in as function parameters.

The ORM entity module (`src/entity/models.py`) and the pydantic schema
modules are not part of the provided sources; their record shapes are
modelled from the specification's data-model section and from the way
the repository code and its unit tests construct `Contact` and `User`
(keyword arguments `name`, `last_name`, `email`, `phone_number`,
`birth_date`, `rest`, `user_id` for contacts; `username`, `email`,
`hash`, `avatar`, `confirmed`, `refresh_token` for users).
-/

/-- A Gregorian calendar date, as PostgreSQL's `date` type stores it. -/
structure Date where
  year : Nat
  month : Nat
  day : Nat
deriving DecidableEq

/-- Gregorian leap-year rule, as used by PostgreSQL's calendar. -/
def isLeap (y : Nat) : Bool :=
  y % 4 == 0 && (!(y % 100 == 0) || y % 400 == 0)

/-- Number of days of month `m` in year `y` (Gregorian). -/
def daysInMonth (y : Nat) (m : Nat) : Nat :=
  if m = 2 then (if isLeap y then 29 else 28)
  else if m = 4 ∨ m = 6 ∨ m = 9 ∨ m = 11 then 30
  else 31

/-- A structurally valid Gregorian date (positive year, month 1..12,
day within the month). -/
def validDate (d : Date) : Prop :=
  1 ≤ d.year ∧ 1 ≤ d.month ∧ d.month ≤ 12 ∧ 1 ≤ d.day ∧ d.day ≤ daysInMonth d.year d.month

instance (d : Date) : Decidable (validDate d) := by
  unfold validDate; infer_instance

/-- Strict month/day lexicographic order (ignores the year): the
month/day of `a` comes strictly earlier in a calendar year than the
month/day of `b`. -/
def mdLt (a b : Date) : Prop :=
  a.month < b.month ∨ (a.month = b.month ∧ a.day < b.day)

instance (a b : Date) : Decidable (mdLt a b) := by
  unfold mdLt; infer_instance

/-- Full lexicographic order on dates: `a` is on or before `b`. -/
def dateLe (a b : Date) : Prop :=
  a.year < b.year ∨ (a.year = b.year ∧ (mdLt a b ∨ (a.month = b.month ∧ a.day = b.day)))

instance (a b : Date) : Decidable (dateLe a b) := by
  unfold dateLe; infer_instance

/-- The calendar day before `d` (PostgreSQL `date - interval`, one day). -/
def prevDay (d : Date) : Date :=
  if 1 < d.day then ⟨d.year, d.month, d.day - 1⟩
  else if 1 < d.month then ⟨d.year, d.month - 1, daysInMonth d.year (d.month - 1)⟩
  else ⟨d.year - 1, 12, 31⟩

/-- The calendar day after `d`. -/
def nextDay (d : Date) : Date :=
  if d.day < daysInMonth d.year d.month then ⟨d.year, d.month, d.day + 1⟩
  else if d.month < 12 then ⟨d.year, d.month + 1, 1⟩
  else ⟨d.year + 1, 1, 1⟩

/-- `d - interval (n days)` on the calendar: PostgreSQL subtracts exact
days.  This embeds `sa_col - cast(datetime.timedelta(next_days), Interval)`
from `age_years_at` in `src/repository/contacts.py`. -/
def subDays (d : Date) : Nat → Date
  | 0 => d
  | n + 1 => subDays (prevDay d) n

/-- `d + n` days on the calendar. -/
def addDays (d : Date) : Nat → Date
  | 0 => d
  | n + 1 => addDays (nextDay d) n

/-- The years field of PostgreSQL `age(a, b)` for dates `b ≤ a`, i.e.
`date_part(year, age(x))` with `a` playing the role of `current_date`.
PostgreSQL computes the interval field-wise (`day := a.day - b.day`,
`month := a.month - b.month`, `year := a.year - b.year`) and then
propagates negative fields upward: a negative day borrows one month
(adding the length of `b`'s month, which is at least the deficit, so the
borrow happens at most once), and a negative month borrows one year.
Only the borrow chain affects the years field, embedded here. -/
def pgAgeYears (a b : Date) : Int :=
  (a.year : Int) - (b.year : Int) -
    (if (a.month : Int) - (b.month : Int) - (if a.day < b.day then 1 else 0) < 0 then 1 else 0)

/-- Embeds `age_years_at(sa_col, next_days)` from
`src/repository/contacts.py`: `date_part(year, age(sa_col - interval
(next_days days)))` when `next_days != 0`, else `date_part(year,
age(sa_col))`.  `today` stands for PostgreSQL's `current_date`, which
one-argument `age` subtracts from. -/
def age_years_at (birth : Date) (today : Date) (next_days : Nat) : Int :=
  pgAgeYears today (if next_days ≠ 0 then subDays birth next_days else birth)

/-- Embeds `has_birthday_next_days(sa_col, next_days)` from
`src/repository/contacts.py`:
`age_years_at(sa_col, next_days) > age_years_at(sa_col)`. -/
def has_birthday_next_days (birth : Date) (today : Date) (next_days : Nat) : Bool :=
  age_years_at birth today next_days > age_years_at birth today 0

/-- Spec-side predicate, from the specification's words: the contact's
birthday anniversary (month/day match, any year) falls within the next
`n` days after `today`. -/
def birthdayWithinNextDays (birth : Date) (today : Date) (n : Nat) : Bool :=
  (List.range n).any (fun i =>
    let d := addDays today (i + 1)
    d.month == birth.month && d.day == birth.day)

/-- Modelled from the spec: a row of the contacts table
(`src/entity/models.py` is not among the provided sources).  Mapped
attributes are the snake_case names used by the repository code
(`filter_by(last_name=...)`, `Contact.birth_date`) and by the unit
tests' constructor calls: `id`, `user_id`, `name`, `last_name`,
`email`, `phone_number`, `birth_date`, `rest`. -/
structure Contact where
  id : Nat
  user_id : Nat
  name : String
  last_name : String
  email : String
  phone_number : Nat
  birth_date : Date
  rest : String
deriving DecidableEq

/-- Modelled from the spec: the `ContactValidationSchema` request body
(schema module not among the provided sources); fields as in the unit
tests: name, last_name, email, phone_number, birth_date, rest. -/
structure ContactValidationSchema where
  name : String
  last_name : String
  email : String
  phone_number : Nat
  birth_date : Date
  rest : String
deriving DecidableEq

/-- Modelled from the spec: the `ContactValidationSchemaResponse` body
(schema module not among the provided sources); the schema of
`ContactValidationSchema` plus the `id`. -/
structure ContactValidationSchemaResponse where
  id : Nat
  name : String
  last_name : String
  email : String
  phone_number : Nat
  birth_date : Date
  rest : String
deriving DecidableEq

/-- Python truthiness of an optional string (`if name:`): present and
non-empty. -/
def pyTruthy (s : Option String) : Bool :=
  !(s.getD ("") == "")

/-- Embeds `read_all_contacts` from `src/repository/contacts.py`: a
`select(Contact)` constrained to `user_id`, with equality filters for
each truthy optional argument, the birthday filter when `find_BD` is
truthy, then `OFFSET`/`LIMIT` (SQL applies `WHERE` before both).
`today` stands for PostgreSQL's `current_date` used by `age`. -/
def read_all_contacts (limit offset : Nat) (name last_name email : Option String)
    (find_BD : Bool) (db : List Contact) (user_id : Nat) (today : Date) : List Contact :=
  ((db.filter (fun c =>
      c.user_id == user_id
      && (!pyTruthy name || c.name == name.getD (""))
      && (!pyTruthy last_name || c.last_name == last_name.getD (""))
      && (!pyTruthy email || c.email == email.getD (""))
      && (!find_BD || has_birthday_next_days c.birth_date today 7))).drop offset).take limit

/-- Embeds `read_contact` from `src/repository/contacts.py`:
`select(Contact).filter_by(id=contact_id).filter_by(user_id=user_id)`,
`scalar_one_or_none`. -/
def read_contact (contact_id : Nat) (db : List Contact) (user_id : Nat) : Option Contact :=
  db.find? (fun c => c.id == contact_id && c.user_id == user_id)

/-- The id the database generates for a newly inserted contact row:
one past the largest id present. -/
def nextContactId (db : List Contact) : Nat :=
  db.foldr (fun c m => max c.id m) 0 + 1

/-- Embeds `add_contact` from `src/repository/contacts.py`:
`Contact(**body.model_dump(exclude_unset=True), user_id=user_id)`,
`db.add`, `commit`, `refresh` (which populates the generated id).
Returns the refreshed contact and the new table state. -/
def add_contact (body : ContactValidationSchema) (db : List Contact) (user_id : Nat) :
    Contact × List Contact :=
  let contact : Contact :=
    { id := nextContactId db
      user_id := user_id
      name := body.name
      last_name := body.last_name
      email := body.email
      phone_number := body.phone_number
      birth_date := body.birth_date
      rest := body.rest }
  (contact, db ++ [contact])

/-- Embeds `update_contact` from `src/repository/contacts.py`: load by
`id` and `user_id`; if found, assign fields and `commit`/`refresh`.
The source assigns `contact.name`, `contact.email` and `contact.rest`
to mapped columns, but `contact.lastName`, `contact.phoneNumber` and
`contact.birthDate` are not mapped attributes of the Contact model
(whose mapped names are the snake_case `last_name`, `phone_number`,
`birth_date` used by `filter_by`, `Contact.birth_date` and the tests'
constructors), so those three assignments create plain instance
attributes that `commit` does not persist and `refresh` discards:
the stored and refreshed row keeps its old `last_name`,
`phone_number` and `birth_date`. -/
def update_contact (body : ContactValidationSchemaResponse) (contact_id : Nat)
    (db : List Contact) (user_id : Nat) : Option Contact × List Contact :=
  match db.find? (fun c => c.id == contact_id && c.user_id == user_id) with
  | none => (none, db)
  | some c =>
      let c' : Contact := { c with name := body.name, email := body.email, rest := body.rest }
      (some c', db.map (fun x => if x.id == contact_id && x.user_id == user_id then c' else x))

/-- Embeds `delete_contact` from `src/repository/contacts.py`: load by
`id` and `user_id`; if found, delete the row and `commit`; return the
loaded contact (or `None`). -/
def delete_contact (contact_id : Nat) (db : List Contact) (user_id : Nat) :
    Option Contact × List Contact :=
  match db.find? (fun c => c.id == contact_id && c.user_id == user_id) with
  | none => (none, db)
  | some c => (some c, db.eraseP (fun x => x.id == contact_id && x.user_id == user_id))

/-- Embeds the `DELETE /contacts/(contact_id)` route from
`src/routes/contacts.py`: it awaits the repository delete and returns
nothing; the decorator fixes the response status at 204 No Content
unconditionally (no branch inspects the repository's result). -/
def routes_delete_contact (contact_id : Nat) (db : List Contact) (user_id : Nat) :
    Nat × List Contact :=
  (204, (delete_contact contact_id db user_id).2)

/-- Modelled from the spec: a row of the users table
(`src/entity/models.py` is not among the provided sources).  Fields per
the specification's data model and the tests' constructors: id, email
(unique), password hash, username, nullable avatar, confirmed flag
(default false), nullable stored refresh token. -/
structure User where
  id : Nat
  username : String
  email : String
  hash : String
  avatar : Option String
  confirmed : Bool
  refresh_token : Option String
deriving DecidableEq

/-- Modelled from the spec: the `UserValidationSchema` signup body
(schema module not among the provided sources): username, email and the
password field named `hash`. -/
structure UserValidationSchema where
  username : String
  email : String
  hash : String
deriving DecidableEq

/-- Modelled from the spec: the `TokenSchema` response body: access
token, refresh token and the token type. -/
structure TokenSchema where
  access_token : String
  refresh_token : String
  token_type : String
deriving DecidableEq

/-- Outcome of a route body: a normal return value, an
`HTTPException(status_code, detail)`, or an unhandled Python fault
(such as an attribute access on `None`), which the framework does not
map to a deliberate HTTP error. -/
inductive RouteErr where
  | http : Nat → String → RouteErr
  | pythonFault : RouteErr
deriving DecidableEq

/-- Embeds `get_user_by_email` from `src/repository/users.py`:
`select(User).filter_by(email=email)`, `scalar_one_or_none`. -/
def get_user_by_email (email : String) (db : List User) : Option User :=
  db.find? (fun u => u.email == email)

/-- The id the database generates for a newly inserted user row. -/
def nextUserId (db : List User) : Nat :=
  db.foldr (fun u m => max u.id m) 0 + 1

/-- Embeds `create_user` from `src/repository/users.py`:
`User(**body.model_dump(), avatar=avatar)` where `avatar` is a
best-effort Gravatar lookup whose failure is swallowed (modelled by the
`avatarLookup` parameter returning `none` on failure); `confirmed`
defaults to false and the stored refresh token to null (spec data
model). -/
def new_user_row (avatarLookup : String → Option String) (body : UserValidationSchema)
    (db : List User) : User :=
  { id := nextUserId db
    username := body.username
    email := body.email
    hash := body.hash
    avatar := avatarLookup body.email
    confirmed := false
    refresh_token := none }

/-- Embeds `create_user` from `src/repository/users.py`: builds the new
row, `db.add`, `commit`, `refresh`; returns the refreshed user and the
new table state. -/
def create_user (avatarLookup : String → Option String) (body : UserValidationSchema)
    (db : List User) : User × List User :=
  (new_user_row avatarLookup body db, db ++ [new_user_row avatarLookup body db])

/-- Embeds `update_token` from `src/repository/users.py`: assigns
`user.refresh_token = token` on the loaded row and commits. -/
def update_token (user : User) (token : Option String) (db : List User) : List User :=
  db.map (fun u => if u.id == user.id then { u with refresh_token := token } else u)

/-- Embeds `confirmed_email` from `src/repository/users.py`: loads the
user by email and assigns `user.confirmed = True` with no null check;
when no user has the email the Python code faults (attribute access on
`None`), modelled as `none`. -/
def confirmed_email (email : String) (db : List User) : Option (List User) :=
  match get_user_by_email email db with
  | none => none
  | some _ => some (db.map (fun u => if u.email == email then { u with confirmed := true } else u))

/-- Embeds the `POST /auth/signup` route from `src/routes/auth.py`:
409 when a user with the email exists, otherwise hash the password,
create the user, dispatch the confirmation email in the background
(out of the modelled state) and return the new user. -/
def signup (hashFn : String → String) (avatarLookup : String → Option String)
    (body : UserValidationSchema) (db : List User) : Except RouteErr User × List User :=
  match get_user_by_email body.email db with
  | some _ => (Except.error (RouteErr.http 409 ("Account already exists")), db)
  | none =>
      (Except.ok (create_user avatarLookup { body with hash := hashFn body.hash } db).1,
        (create_user avatarLookup { body with hash := hashFn body.hash } db).2)

/-- Embeds the `POST /auth/login` route from `src/routes/auth.py`.
`verify` embeds `auth_service.verify_password`; `createAccess` and
`createRefresh` embed the token service's encoders (modelled from the
spec: deterministic encoders of the subject email, the services module
not being among the provided sources). -/
def login (verify : String → String → Bool) (createAccess createRefresh : String → String)
    (username password : String) (db : List User) : Except RouteErr TokenSchema × List User :=
  match get_user_by_email username db with
  | none => (Except.error (RouteErr.http 401 ("Invalid email")), db)
  | some user =>
      if !user.confirmed then
        (Except.error (RouteErr.http 401 ("Email not confirmed")), db)
      else if !(verify password user.hash) then
        (Except.error (RouteErr.http 401 ("Invalid password")), db)
      else
        (Except.ok ⟨createAccess user.email, createRefresh user.email, "bearer"⟩,
          update_token user (some (createRefresh user.email)) db)

/-- Embeds the `GET /auth/refresh_token` route from
`src/routes/auth.py`.  `decodeRefresh` embeds
`auth_service.decode_refresh_token` (modelled from the spec: verifies
signature, expiry and the refresh kind and yields the subject email,
failing with an authentication error otherwise; the services module is
not among the provided sources).  After a successful decode the loaded
user is dereferenced (`user.refresh_token`) without a null check: when
no user has the decoded email the route faults instead of answering
401. -/
def refresh_token (decodeRefresh : String → Option String)
    (createAccess createRefresh : String → String) (token : String) (db : List User) :
    Except RouteErr TokenSchema × List User :=
  match decodeRefresh token with
  | none => (Except.error (RouteErr.http 401 ("Could not validate credentials")), db)
  | some email =>
      match get_user_by_email email db with
      | none => (Except.error RouteErr.pythonFault, db)
      | some user =>
          if user.refresh_token ≠ some token then
            (Except.error (RouteErr.http 401 ("Invalid refresh token")), update_token user none db)
          else
            (Except.ok ⟨createAccess email, createRefresh email, "bearer"⟩,
              update_token user (some (createRefresh email)) db)

/-- Embeds the `GET /auth/confirmed_email/(token)` route from
`src/routes/auth.py`.  `getEmailFromToken` embeds
`auth_service.get_email_from_token` (modelled from the spec: extracts
the subject email of a valid confirmation token; the services module is
not among the provided sources).  400 when no user has the email; a
distinct message and no state change when already confirmed; otherwise
the repository sets the flag. -/
def confirmed_email_route (getEmailFromToken : String → String) (token : String)
    (db : List User) : Except RouteErr String × List User :=
  match get_user_by_email (getEmailFromToken token) db with
  | none => (Except.error (RouteErr.http 400 ("Verification error")), db)
  | some user =>
      if user.confirmed then (Except.ok ("Your email is already confirmed"), db)
      else
        match confirmed_email (getEmailFromToken token) db with
        | some db' => (Except.ok ("Email confirmed"), db')
        | none => (Except.error RouteErr.pythonFault, db)

/-! Calendar helper lemmas used by the birthday-filter proofs. -/

lemma daysInMonth_ge_28 (y m : Nat) : 28 ≤ daysInMonth y m := by
  unfold daysInMonth
  split
  · split <;> omega
  · split <;> omega

lemma daysInMonth_le_31 (y m : Nat) : daysInMonth y m ≤ 31 := by
  unfold daysInMonth
  split
  · split <;> omega
  · split <;> omega

lemma daysInMonth_dec (y : Nat) : daysInMonth y 12 = 31 := by
  unfold daysInMonth
  norm_num

lemma subDays_add (d : Date) (a b : Nat) :
    subDays d (a + b) = subDays (subDays d a) b := by
  induction a generalizing d with
  | zero => simp [subDays]
  | succ n ih =>
      rw [show n + 1 + b = (n + b) + 1 from by omega]
      show subDays (prevDay d) (n + b) = subDays (subDays (prevDay d) n) b
      exact ih (prevDay d)

lemma subDays_within_month (d : Date) (n : Nat) (h : n < d.day) :
    subDays d n = ⟨d.year, d.month, d.day - n⟩ := by
  induction n generalizing d with
  | zero => simp [subDays]
  | succ k ih =>
      show subDays (prevDay d) k = _
      have h1 : 1 < d.day := by omega
      have hp : prevDay d = ⟨d.year, d.month, d.day - 1⟩ := by
        unfold prevDay; rw [if_pos h1]
      rw [hp, ih ⟨d.year, d.month, d.day - 1⟩ (by simp; omega)]
      simp [Date.mk.injEq]
      omega

/-- Subtracting 7 days from a valid date outside January 1–7 stays in
the same calendar year. -/
lemma subDays7_year (bd : Date) (hv : validDate bd)
    (hnot : ¬(bd.month = 1 ∧ bd.day ≤ 7)) : (subDays bd 7).year = bd.year := by
  obtain ⟨hy, hm1, hm2, hd1, hd2⟩ := hv
  by_cases hd : 8 ≤ bd.day
  · rw [subDays_within_month bd 7 (by omega)]
  · have hm : 2 ≤ bd.month := by
      rcases Nat.lt_or_ge bd.month 2 with h | h
      · exact absurd ⟨by omega, by omega⟩ hnot
      · exact h
    rw [show (7 : Nat) = (bd.day - 1) + ((7 - bd.day) + 1) from by omega, subDays_add]
    rw [subDays_within_month bd (bd.day - 1) (by omega)]
    show (subDays (prevDay ⟨bd.year, bd.month, bd.day - (bd.day - 1)⟩) (7 - bd.day)).year = bd.year
    have hday1 : bd.day - (bd.day - 1) = 1 := by omega
    rw [hday1]
    have hp : prevDay ⟨bd.year, bd.month, 1⟩
        = ⟨bd.year, bd.month - 1, daysInMonth bd.year (bd.month - 1)⟩ := by
      unfold prevDay
      rw [if_neg (by simp), if_pos (by simpa using hm)]
    rw [hp, subDays_within_month _ _ (by
      have := daysInMonth_ge_28 bd.year (bd.month - 1); simp; omega)]

/-- Subtracting 7 days from a valid date in January 1–7 lands on
December 24+day of the previous year. -/
lemma subDays7_jan (bd : Date) (hv : validDate bd) (hm : bd.month = 1)
    (hd : bd.day ≤ 7) : subDays bd 7 = ⟨bd.year - 1, 12, 24 + bd.day⟩ := by
  obtain ⟨hy, hm1, hm2, hd1, hd2⟩ := hv
  rw [show (7 : Nat) = (bd.day - 1) + ((7 - bd.day) + 1) from by omega, subDays_add]
  rw [subDays_within_month bd (bd.day - 1) (by omega)]
  show subDays (prevDay ⟨bd.year, bd.month, bd.day - (bd.day - 1)⟩) (7 - bd.day) = _
  have hday1 : bd.day - (bd.day - 1) = 1 := by omega
  rw [hday1]
  have hp : prevDay ⟨bd.year, bd.month, 1⟩ = ⟨bd.year - 1, 12, 31⟩ := by
    unfold prevDay
    rw [if_neg (by simp), if_neg (by simp [hm])]
  rw [hp, subDays_within_month _ _ (by simp; omega)]
  simp [Date.mk.injEq]
  omega

lemma mdLt_asymm {a b : Date} (h : mdLt a b) : ¬ mdLt b a := by
  unfold mdLt at *
  omega

/-- The years field of the embedded PostgreSQL age is the number of
full years elapsed: year difference, minus one when the later date's
month/day has not yet reached the earlier date's month/day. -/
lemma pgAgeYears_eq (a b : Date) :
    pgAgeYears a b = (a.year : Int) - (b.year : Int) - (if mdLt a b then 1 else 0) := by
  unfold pgAgeYears mdLt
  split_ifs <;> omega

lemma daysInMonth_jan (y : Nat) : daysInMonth y 1 = 31 := by
  unfold daysInMonth
  norm_num

lemma addDays_add (d : Date) (a b : Nat) :
    addDays d (a + b) = addDays (addDays d a) b := by
  induction a generalizing d with
  | zero => simp [addDays]
  | succ n ih =>
      rw [show n + 1 + b = (n + b) + 1 from by omega]
      show addDays (nextDay d) (n + b) = addDays (addDays (nextDay d) n) b
      exact ih (nextDay d)

lemma addDays_within_month (d : Date) (n : Nat)
    (h : d.day + n ≤ daysInMonth d.year d.month) :
    addDays d n = ⟨d.year, d.month, d.day + n⟩ := by
  induction n generalizing d with
  | zero => simp [addDays]
  | succ k ih =>
      show addDays (nextDay d) k = _
      have hlt : d.day < daysInMonth d.year d.month := by omega
      have hn : nextDay d = ⟨d.year, d.month, d.day + 1⟩ := by
        unfold nextDay; rw [if_pos hlt]
      rw [hn, ih ⟨d.year, d.month, d.day + 1⟩ (by simp; omega)]
      simp [Date.mk.injEq]
      omega

/-- Adding `31 - td + d` days to December `td` (with `24 + d ≤ td ≤ 31`)
reaches January `d` of the next year. -/
lemma addDays_dec (y td d : Nat) (h1 : 1 ≤ d) (h2 : d ≤ 7) (h3 : 24 + d ≤ td)
    (h4 : td ≤ 31) : addDays ⟨y, 12, td⟩ (31 - td + d) = ⟨y + 1, 1, d⟩ := by
  rw [show 31 - td + d = (31 - td) + (1 + (d - 1)) from by omega, addDays_add, addDays_add]
  rw [addDays_within_month ⟨y, 12, td⟩ (31 - td) (by simp [daysInMonth_dec]; omega)]
  have h31 : td + (31 - td) = 31 := by omega
  rw [h31]
  have hn : addDays ⟨y, 12, 31⟩ 1 = ⟨y + 1, 1, 1⟩ := by
    show nextDay ⟨y, 12, 31⟩ = _
    unfold nextDay
    rw [if_neg (by simp [daysInMonth_dec]), if_neg (by simp)]
  rw [hn, addDays_within_month ⟨y + 1, 1, 1⟩ (d - 1) (by simp [daysInMonth_jan]; omega)]
  simp [Date.mk.injEq]
  omega

/-- The birthday filter at a 7-day look-ahead, unfolded: the years
field of `age(today, birth - interval 7 days)` strictly exceeds that of
`age(today, birth)`. -/
lemma has_birthday7_iff (birth today : Date) :
    has_birthday_next_days birth today 7 = true ↔
      pgAgeYears today (subDays birth 7) > pgAgeYears today birth := by
  unfold has_birthday_next_days age_years_at
  simp

/-- A contact whose birthday anniversary strictly precedes today's
month/day and does not fall within the next 7 calendar days is excluded
by the filter. -/
lemma passed_excluded (birth today : Date) (hvb : validDate birth) (hvt : validDate today)
    (hpassed : mdLt birth today) (hnw : birthdayWithinNextDays birth today 7 = false) :
    has_birthday_next_days birth today 7 = false := by
  have hnlt : ¬ mdLt today birth := mdLt_asymm hpassed
  have hvb' := hvb
  have hvt' := hvt
  unfold validDate at hvb' hvt'
  obtain ⟨byr, bmo, bda⟩ := birth
  obtain ⟨tyr, tmo, tda⟩ := today
  dsimp only at hvb' hvt'
  obtain ⟨hby, hbm1, hbm2, hbd1, hbd2⟩ := hvb'
  obtain ⟨hty, htm1, htm2, htd1, htd2⟩ := hvt'
  cases hb7 : has_birthday_next_days ⟨byr, bmo, bda⟩ ⟨tyr, tmo, tda⟩ 7 with
  | false => rfl
  | true =>
      exfalso
      have hgt := (has_birthday7_iff ⟨byr, bmo, bda⟩ ⟨tyr, tmo, tda⟩).mp hb7
      by_cases hjan : bmo = 1 ∧ bda ≤ 7
      · obtain ⟨hm, hd⟩ := hjan
        subst hm
        rw [subDays7_jan ⟨byr, 1, bda⟩ hvb rfl hd, pgAgeYears_eq, pgAgeYears_eq,
          if_neg hnlt] at hgt
        dsimp only at hgt
        by_cases hb : mdLt ⟨tyr, tmo, tda⟩ ⟨byr - 1, 12, 24 + bda⟩
        · rw [if_pos hb] at hgt
          omega
        · rw [if_neg hb] at hgt
          unfold mdLt at hb
          dsimp only at hb
          have htm : tmo = 12 := by omega
          have htd : 24 + bda ≤ tda := by omega
          subst htm
          have htd31 : tda ≤ 31 := by
            have := daysInMonth_le_31 tyr 12
            omega
          have hadd := addDays_dec tyr tda bda hbd1 hd htd htd31
          have hwin : birthdayWithinNextDays ⟨byr, 1, bda⟩ ⟨tyr, 12, tda⟩ 7 = true := by
            unfold birthdayWithinNextDays
            rw [List.any_eq_true]
            refine ⟨31 - tda + bda - 1, List.mem_range.mpr (by omega), ?_⟩
            dsimp only
            rw [show 31 - tda + bda - 1 + 1 = 31 - tda + bda from by omega, hadd]
            simp
          rw [hnw] at hwin
          exact Bool.noConfusion hwin
      · have hy := subDays7_year ⟨byr, bmo, bda⟩ hvb hjan
        rw [pgAgeYears_eq, pgAgeYears_eq, if_neg hnlt] at hgt
        rw [hy] at hgt
        dsimp only at hgt
        split_ifs at hgt <;> omega

def c1Contact : Contact := ⟨1, 1, ("Ann"), ("Bell"), ("ann@x"), 5, ⟨2000, 5, 20⟩, ("n")⟩

def c1Today : Date := ⟨2023, 5, 3⟩

/-- Claim C1 (amended).  For every contact and every today, the
upcoming-birthday filter of `read_all_contacts` (applied when `find_BD`
is set) includes the contact if and only if the years field of the age
computed against the birth date shifted by 7 days is strictly greater
than the years field of the age against the birth date itself; this
usually coincides with the birthday anniversary falling within the
next 7 days (including across a year boundary), but not always,
because the 7-day shift is applied to the birth date in the birth
year, so leap-day alignment can exclude a contact whose anniversary is
within the next 7 days.  A contact whose anniversary already passed
this year and is not within the next 7 days is excluded, and with a
0-day look-ahead no contact qualifies. -/
theorem birthday_filter_C1 (today : Date) (db : List Contact) (uid : Nat) (c : Contact)
    (hvb : validDate c.birth_date) (hvt : validDate today)
    (hle : dateLe c.birth_date today) :
    (c ∈ read_all_contacts db.length 0 none none none true db uid today
        ↔ c ∈ db ∧ c.user_id = uid
            ∧ pgAgeYears today (subDays c.birth_date 7) > pgAgeYears today c.birth_date)
    ∧ has_birthday_next_days c.birth_date today 0 = false
    ∧ (mdLt c.birth_date today → birthdayWithinNextDays c.birth_date today 7 = false →
        has_birthday_next_days c.birth_date today 7 = false) := by
  refine ⟨?_, ?_, fun h1 h2 => passed_excluded _ _ hvb hvt h1 h2⟩
  · unfold read_all_contacts
    rw [List.drop_zero, List.take_of_length_le (List.length_filter_le _ _),
      List.mem_filter]
    constructor
    · rintro ⟨hmem, hp⟩
      simp only [pyTruthy, Option.getD_none, beq_self_eq_true, Bool.not_true,
        Bool.not_false, Bool.true_or, Bool.or_true, Bool.and_true, Bool.true_and,
        Bool.and_eq_true, beq_iff_eq, Bool.not_eq_true', Bool.false_or] at hp
      exact ⟨hmem, hp.1, (has_birthday7_iff _ _).mp hp.2⟩
    · rintro ⟨hmem, huid, hgt⟩
      refine ⟨hmem, ?_⟩
      simp only [pyTruthy, Option.getD_none, beq_self_eq_true, Bool.not_true,
        Bool.not_false, Bool.true_or, Bool.or_true, Bool.and_true, Bool.true_and,
        Bool.and_eq_true, beq_iff_eq, Bool.not_eq_true', Bool.false_or]
      exact ⟨huid, (has_birthday7_iff _ _).mpr hgt⟩
  · unfold has_birthday_next_days age_years_at
    simp

/-- Witness for `birthday_filter_C1` at a concrete contact, table and
today. -/
theorem birthday_filter_C1_witness :
    validDate c1Contact.birth_date ∧ validDate c1Today
    ∧ dateLe c1Contact.birth_date c1Today
    ∧ ((c1Contact ∈ read_all_contacts [c1Contact].length 0 none none none true
            [c1Contact] 1 c1Today
          ↔ c1Contact ∈ [c1Contact] ∧ c1Contact.user_id = 1
              ∧ pgAgeYears c1Today (subDays c1Contact.birth_date 7)
                  > pgAgeYears c1Today c1Contact.birth_date)
        ∧ has_birthday_next_days c1Contact.birth_date c1Today 0 = false
        ∧ (mdLt c1Contact.birth_date c1Today →
            birthdayWithinNextDays c1Contact.birth_date c1Today 7 = false →
            has_birthday_next_days c1Contact.birth_date c1Today 7 = false)) :=
  ⟨by decide, by decide, by decide,
    birthday_filter_C1 c1Today [c1Contact] 1 c1Contact (by decide) (by decide) (by decide)⟩

/-- Counterexample to claim C1 as stated: for a contact born 2000-03-07
and today 2023-02-28, the birthday anniversary falls exactly 7 days
ahead (within the next 7 days), yet the filter excludes the contact —
`birth_date - interval 7 days` is 2000-02-29 (a leap day of the birth
year), whose anniversary has not passed on 2023-02-28, so both ages
have the same years field.  The claimed equivalence between the
filter's condition and "anniversary within the next 7 days" is
therefore false. -/
theorem birthday_filter_counterexample_C1 :
    birthdayWithinNextDays ⟨2000, 3, 7⟩ ⟨2023, 2, 28⟩ 7 = true
    ∧ has_birthday_next_days ⟨2000, 3, 7⟩ ⟨2023, 2, 28⟩ 7 = false
    ∧ read_all_contacts 10 0 none none none true
        [(⟨1, 1, ("Ann"), ("Bell"), ("ann@x"), 5, ⟨2000, 3, 7⟩, ("n")⟩ : Contact)]
        1 ⟨2023, 2, 28⟩ = [] := by
  decide

/-! Contacts CRUD claims. -/

lemma contact_id_le_fold (db : List Contact) :
    ∀ x ∈ db, x.id ≤ db.foldr (fun c m => max c.id m) 0 := by
  induction db with
  | nil => intro x hx; cases hx
  | cons a l ih =>
      intro x hx
      rcases List.mem_cons.mp hx with h | h
      · subst h
        simp only [List.foldr_cons]
        exact Nat.le_max_left _ _
      · simp only [List.foldr_cons]
        exact le_trans (ih x h) (Nat.le_max_right _ _)

/-- Claim C4.  For every contact whose owner id differs from the
caller's user id, `read_contact`, `update_contact` and `delete_contact`
invoked with the caller's user id return none and leave the stored
state entirely unchanged, even when called with that contact's valid
id.  (The uniqueness hypothesis reflects the primary-key invariant on
contact ids.) -/
theorem owner_scoping_C4 (db : List Contact) (c : Contact) (uid : Nat)
    (body : ContactValidationSchemaResponse) (hmem : c ∈ db) (howner : c.user_id ≠ uid)
    (huniq : ∀ c' ∈ db, c'.id = c.id → c' = c) :
    read_contact c.id db uid = none
    ∧ update_contact body c.id db uid = (none, db)
    ∧ delete_contact c.id db uid = (none, db) := by
  have hfind : db.find? (fun x => x.id == c.id && x.user_id == uid) = none := by
    rw [List.find?_eq_none]
    intro x hx hcontra
    rw [Bool.and_eq_true, beq_iff_eq, beq_iff_eq] at hcontra
    obtain ⟨hid, huid⟩ := hcontra
    have hx_eq := huniq x hx hid
    rw [hx_eq] at huid
    exact howner huid
  refine ⟨hfind, ?_, ?_⟩
  · unfold update_contact
    rw [hfind]
  · unfold delete_contact
    rw [hfind]

/-- Witness for `owner_scoping_C4`: a concrete table with one contact
owned by user 1, accessed as user 2. -/
theorem owner_scoping_C4_witness :
    ((⟨1, 1, ("Ann"), ("Bell"), ("ann@x"), 5, ⟨2000, 1, 1⟩, ("n")⟩ : Contact)
        ∈ [(⟨1, 1, ("Ann"), ("Bell"), ("ann@x"), 5, ⟨2000, 1, 1⟩, ("n")⟩ : Contact)])
    ∧ (1 : Nat) ≠ 2
    ∧ (read_contact 1 [(⟨1, 1, ("Ann"), ("Bell"), ("ann@x"), 5, ⟨2000, 1, 1⟩, ("n")⟩ : Contact)] 2 = none
        ∧ update_contact ⟨1, ("N"), ("L"), ("e@x"), 6, ⟨1999, 2, 2⟩, ("r")⟩ 1
            [(⟨1, 1, ("Ann"), ("Bell"), ("ann@x"), 5, ⟨2000, 1, 1⟩, ("n")⟩ : Contact)] 2
          = (none, [(⟨1, 1, ("Ann"), ("Bell"), ("ann@x"), 5, ⟨2000, 1, 1⟩, ("n")⟩ : Contact)])
        ∧ delete_contact 1 [(⟨1, 1, ("Ann"), ("Bell"), ("ann@x"), 5, ⟨2000, 1, 1⟩, ("n")⟩ : Contact)] 2
          = (none, [(⟨1, 1, ("Ann"), ("Bell"), ("ann@x"), 5, ⟨2000, 1, 1⟩, ("n")⟩ : Contact)])) :=
  ⟨by decide, by decide,
    owner_scoping_C4 [(⟨1, 1, ("Ann"), ("Bell"), ("ann@x"), 5, ⟨2000, 1, 1⟩, ("n")⟩ : Contact)]
      (⟨1, 1, ("Ann"), ("Bell"), ("ann@x"), 5, ⟨2000, 1, 1⟩, ("n")⟩ : Contact) 2
      ⟨1, ("N"), ("L"), ("e@x"), 6, ⟨1999, 2, 2⟩, ("r")⟩
      (by decide) (by decide) (by decide)⟩

/-- Claim C9.  Round trip: for every contact fields body and owner id,
`add_contact` followed by `read_contact` on the returned generated id
with the same owner returns a contact all of whose fields equal the
input, with the generated id populated. -/
theorem add_read_round_trip_C9 (db : List Contact) (body : ContactValidationSchema)
    (uid : Nat) :
    read_contact (add_contact body db uid).1.id (add_contact body db uid).2 uid
        = some (add_contact body db uid).1
    ∧ (add_contact body db uid).1.name = body.name
    ∧ (add_contact body db uid).1.last_name = body.last_name
    ∧ (add_contact body db uid).1.email = body.email
    ∧ (add_contact body db uid).1.phone_number = body.phone_number
    ∧ (add_contact body db uid).1.birth_date = body.birth_date
    ∧ (add_contact body db uid).1.rest = body.rest
    ∧ (add_contact body db uid).1.user_id = uid
    ∧ (add_contact body db uid).1.id = nextContactId db := by
  refine ⟨?_, rfl, rfl, rfl, rfl, rfl, rfl, rfl, rfl⟩
  unfold read_contact add_contact
  rw [List.find?_append]
  have hnone : db.find? (fun x => x.id == nextContactId db && x.user_id == uid) = none := by
    rw [List.find?_eq_none]
    intro x hx hcontra
    rw [Bool.and_eq_true, beq_iff_eq, beq_iff_eq] at hcontra
    have hle := contact_id_le_fold db x hx
    unfold nextContactId at hcontra
    omega
  rw [hnone]
  simp [List.find?]

/-- Claim C7 (amended).  On a missing contact (no contact with the
given id owned by the caller) the store returns a null result rather
than raising; the boundary layer does not translate that null result
into a 404-equivalent response — the delete route returns the fixed
204 No Content success status regardless, so deleting a non-existent
contact surfaces as success. -/
theorem delete_not_found_C7 (contact_id : Nat) (db : List Contact) (uid : Nat)
    (h : db.find? (fun x => x.id == contact_id && x.user_id == uid) = none) :
    delete_contact contact_id db uid = (none, db)
    ∧ routes_delete_contact contact_id db uid = (204, db) := by
  constructor
  · unfold delete_contact
    rw [h]
  · unfold routes_delete_contact delete_contact
    rw [h]

/-- Witness for `delete_not_found_C7`: deleting id 2 from a table
holding only id 1. -/
theorem delete_not_found_C7_witness :
    (List.find? (fun x => x.id == 2 && x.user_id == 1)
        [(⟨1, 1, ("Ann"), ("Bell"), ("ann@x"), 5, ⟨2000, 1, 1⟩, ("n")⟩ : Contact)] = none)
    ∧ (delete_contact 2 [(⟨1, 1, ("Ann"), ("Bell"), ("ann@x"), 5, ⟨2000, 1, 1⟩, ("n")⟩ : Contact)] 1
        = (none, [(⟨1, 1, ("Ann"), ("Bell"), ("ann@x"), 5, ⟨2000, 1, 1⟩, ("n")⟩ : Contact)])
      ∧ routes_delete_contact 2
          [(⟨1, 1, ("Ann"), ("Bell"), ("ann@x"), 5, ⟨2000, 1, 1⟩, ("n")⟩ : Contact)] 1
        = (204, [(⟨1, 1, ("Ann"), ("Bell"), ("ann@x"), 5, ⟨2000, 1, 1⟩, ("n")⟩ : Contact)])) :=
  ⟨by decide,
    delete_not_found_C7 2
      [(⟨1, 1, ("Ann"), ("Bell"), ("ann@x"), 5, ⟨2000, 1, 1⟩, ("n")⟩ : Contact)] 1 (by decide)⟩

/-- Counterexample to claim C7 as stated: deleting a non-existent
contact returns the 204 success status, not a 404-equivalent
not-found response — the boundary layer performs no translation of the
store's null result. -/
theorem delete_not_found_counterexample_C7 :
    delete_contact 1 [] 1 = (none, [])
    ∧ routes_delete_contact 1 [] 1 = (204, [])
    ∧ (routes_delete_contact 1 [] 1).1 ≠ 404 := by
  decide

/-- Claim C3 evaluated at the failing input (the code drops three of
the six field updates).  `update_contact` loads by id and owner and
returns none when not found, but on a found contact it persists only
`name`, `email` and `rest`: the assignments to `contact.lastName`,
`contact.phoneNumber` and `contact.birthDate` target attributes that
are not mapped columns of the Contact model (whose mapped names are
snake_case), so the stored and returned contact keeps its old last
name, phone number and birth date. -/
theorem update_contact_drops_fields_C3 :
    update_contact
        (⟨1, ("NewName"), ("NewLast"), ("new@x"), 222, ⟨1999, 2, 2⟩, ("newnotes")⟩ :
          ContactValidationSchemaResponse) 1
        [(⟨1, 1, ("Ann"), ("OldLast"), ("old@x"), 111, ⟨2000, 1, 1⟩, ("oldnotes")⟩ : Contact)] 1
      = (some (⟨1, 1, ("NewName"), ("OldLast"), ("new@x"), 111, ⟨2000, 1, 1⟩, ("newnotes")⟩ : Contact),
         [(⟨1, 1, ("NewName"), ("OldLast"), ("new@x"), 111, ⟨2000, 1, 1⟩, ("newnotes")⟩ : Contact)])
    ∧ ("OldLast" : String) ≠ ("NewLast")
    ∧ (111 : Nat) ≠ 222
    ∧ (⟨2000, 1, 1⟩ : Date) ≠ ⟨1999, 2, 2⟩
    ∧ update_contact
        (⟨1, ("NewName"), ("NewLast"), ("new@x"), 222, ⟨1999, 2, 2⟩, ("newnotes")⟩ :
          ContactValidationSchemaResponse) 7
        [(⟨1, 1, ("Ann"), ("OldLast"), ("old@x"), 111, ⟨2000, 1, 1⟩, ("oldnotes")⟩ : Contact)] 1
      = (none, [(⟨1, 1, ("Ann"), ("OldLast"), ("old@x"), 111, ⟨2000, 1, 1⟩, ("oldnotes")⟩ : Contact)]) := by
  decide

/-! Auth claims. -/

/-- Claim C6.  Starting from a table with no user for the email,
signing up twice with that email creates a user on the first attempt,
yields a 409 conflict on the second attempt, creates no row on the
second attempt (the table is unchanged), and afterwards exactly one
user with that email exists, the one stored by the first call. -/
theorem signup_conflict_C6 (hashFn : String → String)
    (avatarLookup : String → Option String) (body : UserValidationSchema)
    (db : List User) (h : get_user_by_email body.email db = none) :
    (signup hashFn avatarLookup body db).1
        = Except.ok (new_user_row avatarLookup { body with hash := hashFn body.hash } db)
    ∧ (signup hashFn avatarLookup body (signup hashFn avatarLookup body db).2).1
        = Except.error (RouteErr.http 409 ("Account already exists"))
    ∧ (signup hashFn avatarLookup body (signup hashFn avatarLookup body db).2).2
        = (signup hashFn avatarLookup body db).2
    ∧ ((signup hashFn avatarLookup body db).2.filter (fun u => u.email == body.email)).length = 1
    ∧ get_user_by_email body.email (signup hashFn avatarLookup body db).2
        = some (new_user_row avatarLookup { body with hash := hashFn body.hash } db) := by
  have h' : db.find? (fun u => u.email == body.email) = none := h
  have hstep : signup hashFn avatarLookup body db
      = (Except.ok (new_user_row avatarLookup { body with hash := hashFn body.hash } db),
          db ++ [new_user_row avatarLookup { body with hash := hashFn body.hash } db]) := by
    unfold signup
    rw [h]
    rfl
  have hget2 : get_user_by_email body.email
        (db ++ [new_user_row avatarLookup { body with hash := hashFn body.hash } db])
      = some (new_user_row avatarLookup { body with hash := hashFn body.hash } db) := by
    unfold get_user_by_email
    rw [List.find?_append, h']
    simp [List.find?, new_user_row]
  refine ⟨by rw [hstep], ?_, ?_, ?_, ?_⟩
  · rw [hstep]
    unfold signup
    rw [hget2]
  · rw [hstep]
    unfold signup
    rw [hget2]
  · rw [hstep]
    have hnil : db.filter (fun u => u.email == body.email) = [] :=
      List.filter_eq_nil_iff.mpr (List.find?_eq_none.mp h')
    rw [List.filter_append, hnil]
    simp [List.filter, new_user_row]
  · rw [hstep]
    exact hget2

/-- Witness for `signup_conflict_C6`: an empty table, identity hash,
no avatar. -/
theorem signup_conflict_C6_witness :
    (get_user_by_email ("a@x") ([] : List User) = none)
    ∧ ((signup (fun s => s) (fun _ => none) ⟨("u"), ("a@x"), ("p")⟩ []).1
          = Except.ok (new_user_row (fun _ => none) ⟨("u"), ("a@x"), ("p")⟩ [])
        ∧ (signup (fun s => s) (fun _ => none) ⟨("u"), ("a@x"), ("p")⟩
              (signup (fun s => s) (fun _ => none) ⟨("u"), ("a@x"), ("p")⟩ []).2).1
          = Except.error (RouteErr.http 409 ("Account already exists"))
        ∧ (signup (fun s => s) (fun _ => none) ⟨("u"), ("a@x"), ("p")⟩
              (signup (fun s => s) (fun _ => none) ⟨("u"), ("a@x"), ("p")⟩ []).2).2
          = (signup (fun s => s) (fun _ => none) ⟨("u"), ("a@x"), ("p")⟩ []).2
        ∧ ((signup (fun s => s) (fun _ => none) ⟨("u"), ("a@x"), ("p")⟩ []).2.filter
              (fun u => u.email == ("a@x"))).length = 1
        ∧ get_user_by_email ("a@x")
              (signup (fun s => s) (fun _ => none) ⟨("u"), ("a@x"), ("p")⟩ []).2
          = some (new_user_row (fun _ => none) ⟨("u"), ("a@x"), ("p")⟩ [])) :=
  ⟨rfl, signup_conflict_C6 (fun s => s) (fun _ => none) ⟨("u"), ("a@x"), ("p")⟩ [] rfl⟩

/-- Claim C5.  Login outcomes: an unknown email fails with the
unknown-email error; a known but unconfirmed user fails with the
unconfirmed-specific error regardless of the supplied password; a
confirmed user with a wrong password fails with the wrong-password
error; the three error values are pairwise distinct; and only a
confirmed user with a correct password receives a token pair. -/
theorem login_branches_C5 (verify : String → String → Bool)
    (createAccess createRefresh : String → String) (uname pw : String) (db : List User) :
    (get_user_by_email uname db = none →
      login verify createAccess createRefresh uname pw db
        = (Except.error (RouteErr.http 401 ("Invalid email")), db))
    ∧ (∀ u, get_user_by_email uname db = some u → u.confirmed = false →
      login verify createAccess createRefresh uname pw db
        = (Except.error (RouteErr.http 401 ("Email not confirmed")), db))
    ∧ (∀ u, get_user_by_email uname db = some u → u.confirmed = true →
        verify pw u.hash = false →
      login verify createAccess createRefresh uname pw db
        = (Except.error (RouteErr.http 401 ("Invalid password")), db))
    ∧ (∀ u, get_user_by_email uname db = some u → u.confirmed = true →
        verify pw u.hash = true →
      login verify createAccess createRefresh uname pw db
        = (Except.ok ⟨createAccess u.email, createRefresh u.email, ("bearer")⟩,
            update_token u (some (createRefresh u.email)) db))
    ∧ (RouteErr.http 401 ("Invalid email") ≠ RouteErr.http 401 ("Email not confirmed")
        ∧ RouteErr.http 401 ("Invalid email") ≠ RouteErr.http 401 ("Invalid password")
        ∧ RouteErr.http 401 ("Email not confirmed") ≠ RouteErr.http 401 ("Invalid password")) := by
  refine ⟨?_, ?_, ?_, ?_, by decide, by decide, by decide⟩
  · intro h
    unfold login
    rw [h]
  · intro u hu hc
    simp [login, hu, hc]
  · intro u hu hc hv
    simp [login, hu, hc, hv]
  · intro u hu hc hv
    simp [login, hu, hc, hv]

/-- Witness for `login_branches_C5`, exercising every branch at
concrete inputs: unknown email on an empty table; an unconfirmed user;
a confirmed user with wrong then correct password (equality-check
verifier, identity encoders). -/
theorem login_branches_C5_witness :
    login (fun p h => p == h) (fun e => e) (fun e => e) ("a@x") ("p") []
        = (Except.error (RouteErr.http 401 ("Invalid email")), [])
    ∧ login (fun p h => p == h) (fun e => e) (fun e => e) ("a@x") ("p")
          [⟨1, ("u"), ("a@x"), ("p"), none, false, none⟩]
        = (Except.error (RouteErr.http 401 ("Email not confirmed")),
            [⟨1, ("u"), ("a@x"), ("p"), none, false, none⟩])
    ∧ login (fun p h => p == h) (fun e => e) (fun e => e) ("a@x") ("wrong")
          [⟨1, ("u"), ("a@x"), ("p"), none, true, none⟩]
        = (Except.error (RouteErr.http 401 ("Invalid password")),
            [⟨1, ("u"), ("a@x"), ("p"), none, true, none⟩])
    ∧ login (fun p h => p == h) (fun e => e) (fun e => e) ("a@x") ("p")
          [⟨1, ("u"), ("a@x"), ("p"), none, true, none⟩]
        = (Except.ok ⟨("a@x"), ("a@x"), ("bearer")⟩,
            update_token ⟨1, ("u"), ("a@x"), ("p"), none, true, none⟩ (some ("a@x"))
              [⟨1, ("u"), ("a@x"), ("p"), none, true, none⟩]) :=
  ⟨(login_branches_C5 (fun p h => p == h) (fun e => e) (fun e => e) ("a@x") ("p") []).1 rfl,
    (login_branches_C5 (fun p h => p == h) (fun e => e) (fun e => e) ("a@x") ("p")
        [⟨1, ("u"), ("a@x"), ("p"), none, false, none⟩]).2.1
      ⟨1, ("u"), ("a@x"), ("p"), none, false, none⟩ rfl rfl,
    (login_branches_C5 (fun p h => p == h) (fun e => e) (fun e => e) ("a@x") ("wrong")
        [⟨1, ("u"), ("a@x"), ("p"), none, true, none⟩]).2.2.1
      ⟨1, ("u"), ("a@x"), ("p"), none, true, none⟩ rfl rfl (by decide),
    (login_branches_C5 (fun p h => p == h) (fun e => e) (fun e => e) ("a@x") ("p")
        [⟨1, ("u"), ("a@x"), ("p"), none, true, none⟩]).2.2.2.1
      ⟨1, ("u"), ("a@x"), ("p"), none, true, none⟩ rfl rfl (by decide)⟩

/-- Claim C8.  Email confirmation is idempotent: for an existing user
already confirmed, the route returns the distinct already-confirmed
message and leaves the table unchanged; for an existing unconfirmed
user it sets the flag and returns the confirmed message; and the
confirmed flag of every stored user only ever goes from false to true,
never back. -/
theorem confirmed_email_idempotent_C8 (getEmailFromToken : String → String) (tok : String)
    (db : List User) (user : User)
    (h : get_user_by_email (getEmailFromToken tok) db = some user) :
    (user.confirmed = true →
      confirmed_email_route getEmailFromToken tok db
        = (Except.ok ("Your email is already confirmed"), db))
    ∧ (user.confirmed = false →
      confirmed_email_route getEmailFromToken tok db
        = (Except.ok ("Email confirmed"),
            db.map (fun u =>
              if u.email == getEmailFromToken tok then { u with confirmed := true } else u)))
    ∧ (∀ i : Nat, db[i]?.map User.confirmed = some true →
        ((confirmed_email_route getEmailFromToken tok db).2)[i]?.map User.confirmed
          = some true) := by
  refine ⟨?_, ?_, ?_⟩
  · intro hc
    simp [confirmed_email_route, h, hc]
  · intro hc
    simp [confirmed_email_route, confirmed_email, h, hc]
  · intro i hi
    by_cases hc : user.confirmed = true
    · have heq : confirmed_email_route getEmailFromToken tok db
          = (Except.ok ("Your email is already confirmed"), db) := by
        simp [confirmed_email_route, h, hc]
      rw [heq]
      exact hi
    · have hc' : user.confirmed = false := by
        revert hc
        cases user.confirmed <;> simp
      have heq : confirmed_email_route getEmailFromToken tok db
          = (Except.ok ("Email confirmed"),
              db.map (fun u =>
                if u.email == getEmailFromToken tok then { u with confirmed := true } else u)) := by
        simp [confirmed_email_route, confirmed_email, h, hc']
      rw [heq]
      cases hg : db[i]? with
      | none =>
          rw [hg] at hi
          simp at hi
      | some u' =>
          rw [hg] at hi
          have hu' : u'.confirmed = true := by simpa using hi
          rw [List.getElem?_map, hg]
          by_cases hif : u'.email = getEmailFromToken tok <;> simp [hif, hu']

/-- Witness for `confirmed_email_idempotent_C8`: a one-user table,
exercised once already-confirmed and once unconfirmed. -/
theorem confirmed_email_idempotent_C8_witness :
    (get_user_by_email ("e@x") [⟨1, ("u"), ("e@x"), ("p"), none, true, none⟩]
        = some ⟨1, ("u"), ("e@x"), ("p"), none, true, none⟩)
    ∧ confirmed_email_route (fun _ => ("e@x")) ("t")
          [⟨1, ("u"), ("e@x"), ("p"), none, true, none⟩]
        = (Except.ok ("Your email is already confirmed"),
            [⟨1, ("u"), ("e@x"), ("p"), none, true, none⟩])
    ∧ confirmed_email_route (fun _ => ("e@x")) ("t")
          [⟨1, ("u"), ("e@x"), ("p"), none, false, none⟩]
        = (Except.ok ("Email confirmed"),
            [⟨1, ("u"), ("e@x"), ("p"), none, false, none⟩].map (fun u =>
              if u.email == ("e@x") then { u with confirmed := true } else u)) :=
  ⟨rfl,
    (confirmed_email_idempotent_C8 (fun _ => ("e@x")) ("t")
        [⟨1, ("u"), ("e@x"), ("p"), none, true, none⟩]
        ⟨1, ("u"), ("e@x"), ("p"), none, true, none⟩ rfl).1 rfl,
    (confirmed_email_idempotent_C8 (fun _ => ("e@x")) ("t")
        [⟨1, ("u"), ("e@x"), ("p"), none, false, none⟩]
        ⟨1, ("u"), ("e@x"), ("p"), none, false, none⟩ rfl).2.1 rfl⟩

/-- Looking a user up by email still finds it, with the new stored
refresh token, after `update_token` (which rewrites only that user's
`refresh_token` field, keyed by id). -/
lemma get_user_by_email_update_token (user : User) (t : Option String) (db : List User)
    (email : String) (h : get_user_by_email email db = some user) :
    get_user_by_email email (update_token user t db)
      = some { user with refresh_token := t } := by
  unfold get_user_by_email update_token at *
  rw [List.find?_map]
  have hpf : ((fun (u : User) => u.email == email) ∘
      (fun (u : User) => if u.id == user.id then { u with refresh_token := t } else u))
      = (fun (u : User) => u.email == email) := by
    funext u
    by_cases hid : u.id = user.id <;> simp [hid]
  rw [hpf, h]
  simp

/-- Claim C2.  If the presented refresh token decodes successfully but
does not equal the refresh token stored on the user's record, the
refresh operation fails with the 401 invalid-refresh-token error and
nulls the stored refresh token; replaying the same token afterwards
fails the same way (the stored token is then null, which never equals a
presented token). -/
theorem refresh_mismatch_revokes_C2 (decodeRefresh : String → Option String)
    (createAccess createRefresh : String → String) (tok email : String)
    (db : List User) (user : User)
    (hdec : decodeRefresh tok = some email)
    (huser : get_user_by_email email db = some user)
    (hmis : user.refresh_token ≠ some tok) :
    refresh_token decodeRefresh createAccess createRefresh tok db
      = (Except.error (RouteErr.http 401 ("Invalid refresh token")), update_token user none db)
    ∧ get_user_by_email email (update_token user none db)
        = some { user with refresh_token := none }
    ∧ refresh_token decodeRefresh createAccess createRefresh tok (update_token user none db)
      = (Except.error (RouteErr.http 401 ("Invalid refresh token")),
          update_token { user with refresh_token := none } none (update_token user none db)) := by
  have h2 := get_user_by_email_update_token user none db email huser
  refine ⟨?_, h2, ?_⟩
  · simp [refresh_token, hdec, huser, hmis]
  · simp [refresh_token, hdec, h2]

/-- Witness for `refresh_mismatch_revokes_C2`: a stored token differing
from the presented one. -/
theorem refresh_mismatch_revokes_C2_witness :
    ((fun s => if s == ("t") then some ("e@x") else none) ("t") = some ("e@x"))
    ∧ (get_user_by_email ("e@x") [⟨1, ("u"), ("e@x"), ("p"), none, true, some ("other")⟩]
        = some ⟨1, ("u"), ("e@x"), ("p"), none, true, some ("other")⟩)
    ∧ ((⟨1, ("u"), ("e@x"), ("p"), none, true, some ("other")⟩ : User).refresh_token
        ≠ some ("t"))
    ∧ (refresh_token (fun s => if s == ("t") then some ("e@x") else none)
          (fun e => e) (fun e => e) ("t")
          [⟨1, ("u"), ("e@x"), ("p"), none, true, some ("other")⟩]
        = (Except.error (RouteErr.http 401 ("Invalid refresh token")),
            update_token ⟨1, ("u"), ("e@x"), ("p"), none, true, some ("other")⟩ none
              [⟨1, ("u"), ("e@x"), ("p"), none, true, some ("other")⟩])
      ∧ get_user_by_email ("e@x")
          (update_token ⟨1, ("u"), ("e@x"), ("p"), none, true, some ("other")⟩ none
            [⟨1, ("u"), ("e@x"), ("p"), none, true, some ("other")⟩])
        = some { (⟨1, ("u"), ("e@x"), ("p"), none, true, some ("other")⟩ : User) with
              refresh_token := none }
      ∧ refresh_token (fun s => if s == ("t") then some ("e@x") else none)
          (fun e => e) (fun e => e) ("t")
          (update_token ⟨1, ("u"), ("e@x"), ("p"), none, true, some ("other")⟩ none
            [⟨1, ("u"), ("e@x"), ("p"), none, true, some ("other")⟩])
        = (Except.error (RouteErr.http 401 ("Invalid refresh token")),
            update_token
              { (⟨1, ("u"), ("e@x"), ("p"), none, true, some ("other")⟩ : User) with
                  refresh_token := none } none
              (update_token ⟨1, ("u"), ("e@x"), ("p"), none, true, some ("other")⟩ none
                [⟨1, ("u"), ("e@x"), ("p"), none, true, some ("other")⟩]))) :=
  ⟨rfl, rfl, by decide,
    refresh_mismatch_revokes_C2 (fun s => if s == ("t") then some ("e@x") else none)
      (fun e => e) (fun e => e) ("t") ("e@x")
      [⟨1, ("u"), ("e@x"), ("p"), none, true, some ("other")⟩]
      ⟨1, ("u"), ("e@x"), ("p"), none, true, some ("other")⟩ rfl rfl (by decide)⟩

/-- Claim C10.  After a successful decode, the refresh route
dereferences the loaded user without a null check: when no user has
the decoded email the operation faults (an unhandled attribute access
on None) instead of answering with an authentication error; when the
user exists the operation never faults, so the deliberate 401 branch is
only reachable under that precondition. -/
theorem refresh_null_deref_C10 (decodeRefresh : String → Option String)
    (createAccess createRefresh : String → String) (tok email : String) (db : List User)
    (hdec : decodeRefresh tok = some email) :
    (get_user_by_email email db = none →
      refresh_token decodeRefresh createAccess createRefresh tok db
        = (Except.error RouteErr.pythonFault, db))
    ∧ (∀ user, get_user_by_email email db = some user →
      (refresh_token decodeRefresh createAccess createRefresh tok db).1
        ≠ Except.error RouteErr.pythonFault) := by
  constructor
  · intro h
    simp [refresh_token, hdec, h]
  · intro user h
    simp only [refresh_token, hdec, h]
    split
    · simp
    · simp

/-- Witness for `refresh_null_deref_C10`: a decodable token whose
subject has no user row (fault), and the same token with the user
present (no fault). -/
theorem refresh_null_deref_C10_witness :
    refresh_token (fun _ => some ("e@x")) (fun e => e) (fun e => e) ("t") []
        = (Except.error RouteErr.pythonFault, [])
    ∧ (refresh_token (fun _ => some ("e@x")) (fun e => e) (fun e => e) ("t")
          [⟨1, ("u"), ("e@x"), ("p"), none, true, some ("t")⟩]).1
        ≠ Except.error RouteErr.pythonFault :=
  ⟨(refresh_null_deref_C10 (fun _ => some ("e@x")) (fun e => e) (fun e => e) ("t") ("e@x")
      [] rfl).1 rfl,
    (refresh_null_deref_C10 (fun _ => some ("e@x")) (fun e => e) (fun e => e) ("t") ("e@x")
      [⟨1, ("u"), ("e@x"), ("p"), none, true, some ("t")⟩] rfl).2
      ⟨1, ("u"), ("e@x"), ("p"), none, true, some ("t")⟩ rfl⟩
